import Mathlib

set_option maxRecDepth 100000
set_option maxHeartbeats 1000000

/-!
Shallow embedding of the JMAP MCP server's protocol-client layer
(src/index.ts, class JmapJMAPClient) and proofs about it.

Strings are modelled with Lean's String; the JavaScript string primitives
used by the source (toLowerCase, trim, includes, startsWith) are re-implemented
over the underlying character list so that they evaluate inside the kernel.
Network effects are modelled by passing the transport's responses in as data
(a ServerBehavior record) and returning the ordered list of requests the
client issues alongside the result.
-/

namespace JmapMcp

/-- Model of JavaScript String.prototype.includes: substring containment. -/
def strContains (s pat : String) : Bool := decide (pat.data <:+: s.data)

/-- Model of JavaScript String.prototype.toLowerCase (ASCII case folding). -/
def jsToLower (s : String) : String := String.mk (s.data.map Char.toLower)

/-- Model of JavaScript String.prototype.trim: strip whitespace from both ends. -/
def jsTrim (s : String) : String :=
  String.mk (((s.data.dropWhile Char.isWhitespace).reverse.dropWhile Char.isWhitespace).reverse)

/-- Model of JavaScript String.prototype.startsWith. -/
def jsStartsWith (s pat : String) : Bool := pat.data.isPrefixOf s.data

/-- JavaScript truthiness of an optional string: undefined/null and "" are falsy. -/
def truthyOpt : Option String → Bool
  | none => false
  | some s => s != ""

/-- JavaScript (a || b) over optional strings. -/
def jsOr (a b : Option String) : Option String := if truthyOpt a then a else b

/-- JavaScript (v || dflt) producing a plain string. -/
def jsGetD (o : Option String) (dflt : String) : String :=
  match o with
  | some s => if s != "" then s else dflt
  | none => dflt

/-- The myRights capability flags of a mailbox record. -/
structure MailboxRights where
  mayAddItems : Bool
  mayCreateChild : Bool
deriving DecidableEq, Repr

/-- A cached mailbox record as used by the client (id, name, role, flags). -/
structure Mailbox where
  id : String
  name : String
  role : Option String
  isReadOnly : Bool
  myRights : Option MailboxRights
deriving DecidableEq, Repr

/-- The fixed label-to-role table of findMailboxByName (source lines 224-235). -/
def roleMapLookup : String → Option String
  | "inbox" => some "inbox"
  | "sent" => some "sent"
  | "draft" => some "drafts"
  | "drafts" => some "drafts"
  | "trash" => some "trash"
  | "deleted" => some "trash"
  | "spam" => some "junk"
  | "junk" => some "junk"
  | "archive" => some "archive"
  | "outbox" => some "outbox"
  | _ => none

/-- Strategy 1 predicate: case-insensitive exact match on the display name. -/
def exactNameMatch (normalizedName : String) (mb : Mailbox) : Bool :=
  jsToLower mb.name == normalizedName

/-- Strategy 2 predicate: case-insensitive substring match on the display name. -/
def substringNameMatch (normalizedName : String) (mb : Mailbox) : Bool :=
  strContains (jsToLower mb.name) normalizedName

/-- Strategy 3 predicate: match on the mailbox's semantic role. -/
def roleMatch (role : String) (mb : Mailbox) : Bool := mb.role == some role

/-- Embedding of findMailboxByName (source lines 202-244) over an already
populated mailbox cache. The label is lowercased and trimmed, then the three
strategies run in order, first hit winning; no hit yields none. -/
def findMailboxByName (mailboxName : String) (mailboxCache : List Mailbox) : Option String :=
  let normalizedName := jsTrim (jsToLower mailboxName)
  let mailbox :=
    match mailboxCache.find? (exactNameMatch normalizedName) with
    | some mb => some mb
    | none =>
      match mailboxCache.find? (substringNameMatch normalizedName) with
      | some mb => some mb
      | none =>
        match roleMapLookup normalizedName with
        | some role => mailboxCache.find? (roleMatch role)
        | none => none
  mailbox.map (fun mb => mb.id)

/-- The resolver as the specification words it: three strategies tried in
order with the first hit winning, expressed as an orElse chain. -/
def findMailboxByNameSpec (mailboxName : String) (mailboxCache : List Mailbox) : Option String :=
  let normalizedName := jsTrim (jsToLower mailboxName)
  ((mailboxCache.find? (exactNameMatch normalizedName)).map (fun mb => mb.id)).orElse (fun _ =>
    ((mailboxCache.find? (substringNameMatch normalizedName)).map (fun mb => mb.id)).orElse (fun _ =>
      match roleMapLookup normalizedName with
      | some role => (mailboxCache.find? (roleMatch role)).map (fun mb => mb.id)
      | none => none))

/-- The parts of the discovery document consulted when building the session:
the primary-account mapping for the mail capability and the ordered key list
of the accounts map. -/
structure SessionData where
  primaryAccountsMail : Option String
  accountKeys : List String
deriving DecidableEq, Repr

/-- Embedding of the account-identifier choice in getSession (source line 149):
config.accountId || sessionData.primaryAccounts of the mail URN || first
accounts-map key, under JavaScript truthiness. -/
def resolveAccountId (configAccountId : Option String) (sd : SessionData) : Option String :=
  jsOr (jsOr configAccountId sd.primaryAccountsMail) sd.accountKeys.head?

deriving instance DecidableEq for Except

/-- An HTTP response as observed by the client: ok flag, status code,
status text and body text. -/
structure HttpResponse where
  ok : Bool
  status : Nat
  statusText : String
  body : String
deriving DecidableEq, Repr

/-- The alternative-endpoint probing loop of authenticate (source lines 86-108):
the index of the first alternative discovery endpoint that answers ok (the
loop breaks there); the value is only logged by the source. -/
def probeAlternatives (alternatives : List HttpResponse) : Option Nat :=
  alternatives.findIdx? (fun r => r.ok)

/-- The error text thrown when the primary discovery request is not ok
(source line 110). -/
def discoveryFailureMessage (r : HttpResponse) : String :=
  "JMAP discovery failed: " ++ toString r.status ++ " " ++ r.statusText ++ ". Response: " ++ r.body

/-- The wrapper applied by authenticate's catch block (source line 118). -/
def authFailureMessage (r : HttpResponse) : String :=
  "Authentication failed: " ++ discoveryFailureMessage r

/-- Outcome of an authentication attempt: the basic-auth token stored on the
client (if any) and the overall result. -/
structure AuthOutcome where
  storedToken : Option String
  result : Except String Unit
deriving DecidableEq, Repr

/-- Embedding of authenticate (source lines 59-120). The transport's answers
are passed in: the primary well-known discovery response and the responses of
the alternative endpoints probed when the primary is not ok. The probe's
result is discarded by the source (it is only logged), and the token is only
stored on the primary-ok path. -/
def authenticate (credentials : String) (primary : HttpResponse)
    (alternatives : List HttpResponse) : AuthOutcome :=
  if primary.ok then
    { storedToken := some credentials, result := Except.ok () }
  else
    let _probedOk := probeAlternatives alternatives
    { storedToken := none, result := Except.error (authFailureMessage primary) }

/-- The JSON body jmapRequest posts (source lines 179-187): the fixed
capability URN list plus the method-call list. -/
structure JmapRequestBody (α : Type) where
  usingCapabilities : List String
  methodCalls : List α
deriving Repr

/-- The four capability URNs declared on every batch (source lines 180-185). -/
def jmapCapabilities : List String :=
  ["urn:ietf:params:jmap:core", "urn:ietf:params:jmap:mail",
   "urn:ietf:params:jmap:calendars", "urn:ietf:params:jmap:contacts"]

/-- Embedding of the request-body construction in jmapRequest. -/
def jmapRequestBody {α : Type} (methodCalls : List α) : JmapRequestBody α :=
  { usingCapabilities := jmapCapabilities, methodCalls := methodCalls }

/-- An unresolved back-reference parameter, written as a number-sign key in
the source: take the field at the given path of the result tagged resultOf. -/
structure BackRef where
  resultOf : String
  name : String
  path : String
deriving DecidableEq, Repr

/-- An Email/query filter object: free-text and/or mailbox restriction. -/
structure EmailFilter where
  text : Option String
  inMailbox : Option String
deriving DecidableEq, Repr

/-- The method calls issued by the mail list/search operations: a query call
and a get call whose ids parameter is a back-reference. -/
inductive MailCall where
  | emailQuery (accountId : Option String) (filter : Option EmailFilter)
      (sortProperty : String) (sortAscending : Bool) (limit : Nat) (tag : String)
  | emailGet (accountId : Option String) (ids : BackRef) (properties : List String) (tag : String)
deriving DecidableEq, Repr

/-- The property set requested by getEmails (source lines 278-282). -/
def emailListProperties : List String :=
  ["id", "subject", "from", "to", "cc", "bcc", "receivedAt", "sentAt",
   "hasAttachment", "preview", "keywords", "size", "mailboxIds"]

/-- The reduced property set requested by searchEmails (source lines 388-391). -/
def searchResultProperties : List String :=
  ["id", "subject", "from", "to", "receivedAt", "preview", "hasAttachment",
   "keywords", "mailboxIds"]

/-- The regular-expression test of getEmails (source line 295): a single
lowercase ASCII letter. -/
def isSingleLowercaseLetter (s : String) : Bool :=
  match s.data with
  | [c] => decide ('a' ≤ c) && decide (c ≤ 'z')
  | _ => false

/-- The condition under which getEmails resolves the supplied mailbox string
as a name (source line 295): truthy and not a single lowercase letter. -/
def getEmailsResolvesName (mailboxId : String) : Bool :=
  mailboxId != "" && !(isSingleLowercaseLetter mailboxId)

/-- The condition under which searchEmails resolves the supplied mailbox
string as a name (source line 358): truthy and not starting with "M". -/
def searchEmailsResolvesName (mailboxId : String) : Bool :=
  mailboxId != "" && !(jsStartsWith mailboxId "M")

/-- The not-found error text raised when name resolution fails (source
lines 298 and 361). -/
def mailboxNotFoundMessage (mailboxId : String) (mailboxCache : List Mailbox) : String :=
  "Mailbox \"" ++ mailboxId ++ "\" not found. Available mailboxes: " ++
    String.intercalate ", " (mailboxCache.map (fun mb => mb.name))

/-- The mailbox-string handling of getEmails (source lines 294-301): keep the
string as-is when the heuristic says it is already an identifier, otherwise
resolve it through the Identifier Resolver, failing when no mailbox matches. -/
def resolveForGetEmails (mailboxId : String) (mailboxCache : List Mailbox) :
    Except String String :=
  if getEmailsResolvesName mailboxId then
    match findMailboxByName mailboxId mailboxCache with
    | none => Except.error (mailboxNotFoundMessage mailboxId mailboxCache)
    | some fid => Except.ok fid
  else Except.ok mailboxId

/-- Embedding of getEmails (source lines 262-332) up to the method-call batch
it hands to jmapRequest: the all-mailboxes branch when no mailbox is supplied,
otherwise the identifier heuristic, name resolution over the cache, and the
filtered two-call batch. -/
def getEmails (accountId : Option String) (mailboxId : Option String) (limit : Nat)
    (mailboxCache : List Mailbox) : Except String (List MailCall) :=
  if truthyOpt mailboxId = false then
    Except.ok
      [MailCall.emailQuery accountId none "receivedAt" false limit "query",
       MailCall.emailGet accountId
         { resultOf := "query", name := "Email/query", path := "/ids" }
         emailListProperties "emails"]
  else
    match resolveForGetEmails (mailboxId.getD "") mailboxCache with
    | Except.error e => Except.error e
    | Except.ok resolvedMailboxId =>
      Except.ok
        [MailCall.emailQuery accountId
          (some (if resolvedMailboxId != "" then
                   { text := none, inMailbox := some resolvedMailboxId }
                 else { text := none, inMailbox := none }))
          "receivedAt" false limit "query",
         MailCall.emailGet accountId
           { resultOf := "query", name := "Email/query", path := "/ids" }
           emailListProperties "emails"]

/-- The mailbox-string handling of searchEmails (source lines 356-364): keep
the option as-is when absent or when the string starts with M, otherwise
resolve it, failing when no mailbox matches. -/
def resolveForSearchEmails (mailboxId : Option String) (mailboxCache : List Mailbox) :
    Except String (Option String) :=
  if searchEmailsResolvesName (mailboxId.getD "") then
    match findMailboxByName (mailboxId.getD "") mailboxCache with
    | none => Except.error (mailboxNotFoundMessage (mailboxId.getD "") mailboxCache)
    | some fid => Except.ok (some fid)
  else Except.ok mailboxId

/-- Embedding of searchEmails (source lines 355-400) up to the method-call
batch: optional mailbox resolution with the startsWith heuristic, a free-text
filter optionally narrowed to the resolved mailbox, and the two-call batch. -/
def searchEmails (accountId : Option String) (query : String) (limit : Nat)
    (mailboxId : Option String) (mailboxCache : List Mailbox) : Except String (List MailCall) :=
  match resolveForSearchEmails mailboxId mailboxCache with
  | Except.error e => Except.error e
  | Except.ok resolvedMailboxId =>
    Except.ok
      [MailCall.emailQuery accountId
        (some { text := some query,
                inMailbox := if truthyOpt resolvedMailboxId then resolvedMailboxId else none })
        "receivedAt" false limit "search",
       MailCall.emailGet accountId
         { resultOf := "search", name := "Email/query", path := "/ids" }
         searchResultProperties "emails"]

/-- Client-side state consumed by sendEmail: the configured username, the
hostname of the configured base URL (URL parsing is done by the runtime and
treated as external here), and the established session's account identifier,
which the source also reuses as the submission's identityId. -/
structure ClientState where
  username : String
  hostname : String
  accountId : Option String
deriving DecidableEq, Repr

/-- The argument object of sendEmail (source lines 402-411). Optional arrays
absent in JavaScript are modelled as empty lists. -/
structure EmailData where
  toRecipients : List String
  subject : String
  textBody : Option String
  htmlBody : Option String
  cc : List String
  bcc : List String
  inReplyTo : Option String
  references : List String
deriving DecidableEq, Repr

/-- The hostname with a leading "mail." stripped, as in the source's anchored
replace (source line 482). -/
def stripLeadingMail (hostname : String) : String :=
  if jsStartsWith hostname "mail." then String.mk (hostname.data.drop 5) else hostname

/-- Sender derivation (source lines 478-484): the username itself when it
contains an at sign, else username at the base URL's hostname without a
leading "mail.". -/
def deriveFromEmail (st : ClientState) : String :=
  if strContains st.username "@" then st.username
  else st.username ++ "@" ++ stripLeadingMail st.hostname

/-- The body structure chosen in source lines 515-560: two-part alternative
when both bodies are truthy, HTML-only when only the HTML body is truthy,
else text-only (defaulting to the empty string). -/
inductive EmailBody where
  | multipartAlternative (textValue htmlValue : String)
  | htmlOnly (htmlValue : String)
  | textOnly (textValue : String)
deriving DecidableEq, Repr

/-- The draft email object built by sendEmail (source lines 488-560).
Recipient entries carry only their email string (the source wraps each in an
object with a single email field). -/
structure EmailObject where
  fromEmail : String
  toRecipients : List String
  cc : List String
  bcc : List String
  subject : String
  draftKeyword : Bool
  mailboxId : String
  inReplyTo : Option String
  references : List String
  body : EmailBody
deriving DecidableEq, Repr

/-- Construction of the draft email object from the request data, the derived
sender and the chosen target mailbox. -/
def buildEmailObject (d : EmailData) (fromEmail : String) (draftsMailboxId : String) : EmailObject :=
  { fromEmail := fromEmail
    toRecipients := d.toRecipients.map jsTrim
    cc := if d.cc.isEmpty then [] else d.cc.map jsTrim
    bcc := if d.bcc.isEmpty then [] else d.bcc.map jsTrim
    subject := d.subject
    draftKeyword := true
    mailboxId := draftsMailboxId
    inReplyTo := if truthyOpt d.inReplyTo then d.inReplyTo else none
    references := if d.references.isEmpty then [] else d.references
    body :=
      if truthyOpt d.htmlBody && truthyOpt d.textBody then
        EmailBody.multipartAlternative (d.textBody.getD "") (d.htmlBody.getD "")
      else if truthyOpt d.htmlBody then EmailBody.htmlOnly (d.htmlBody.getD "")
      else EmailBody.textOnly (d.textBody.getD "") }

/-- The submission envelope (source lines 599-606): sender plus all
recipients merged from to, cc and bcc, each trimmed. -/
structure Envelope where
  mailFrom : String
  rcptTo : List String
deriving DecidableEq, Repr

/-- Envelope construction from the request data and the derived sender. -/
def buildEnvelope (d : EmailData) (fromEmail : String) : Envelope :=
  { mailFrom := fromEmail
    rcptTo := d.toRecipients.map jsTrim ++ d.cc.map jsTrim ++ d.bcc.map jsTrim }

/-- A network request issued by sendEmail: the lazy mailbox listing, the
draft-creating Email/set, or the EmailSubmission/set (whose identityId equals
the account identifier in the source). -/
inductive JmapCall where
  | mailboxGet
  | emailSetCreate (accountId : Option String) (draft : EmailObject)
  | submissionSetCreate (accountId : Option String) (emailId : String) (envelope : Envelope)
deriving DecidableEq, Repr

/-- A JMAP set-error object as inspected by the source: optional type and
optional description fields. -/
structure SetError where
  type : Option String
  description : Option String
deriving DecidableEq, Repr

/-- JSON.stringify of a set-error object, used as the description fallback
(escaping of embedded quotes inside field values is not modelled). -/
def stringifySetError (e : SetError) : String :=
  match e.type, e.description with
  | none, none => "\x7b\x7d"
  | some t, none => "\x7b\"type\":\"" ++ t ++ "\"\x7d"
  | none, some dsc => "\x7b\"description\":\"" ++ dsc ++ "\"\x7d"
  | some t, some dsc => "\x7b\"type\":\"" ++ t ++ "\",\"description\":\"" ++ dsc ++ "\"\x7d"

/-- The CreateError message of source line 584. -/
def createFailMessage (e : SetError) : String :=
  "Failed to create draft: " ++ jsGetD e.type "Unknown error" ++ " - " ++
    jsGetD e.description (stringifySetError e)

/-- The SubmitError message of source line 639. -/
def submitFailMessage (e : SetError) : String :=
  "Failed to send email: " ++ jsGetD e.type "Unknown error" ++ " - " ++
    jsGetD e.description (stringifySetError e)

/-- The address-format error message of source line 612. -/
def invalidAddressMessage (a : String) : String :=
  "Invalid email address: \"" ++ a ++ "\". Email addresses must be in the format user@domain.com"

/-- The server's answer to the draft-creating Email/set call: the notCreated
entry for the draft key and the created draft's id, if any. -/
structure EmailSetResponse where
  notCreatedDraft : Option SetError
  createdDraftId : Option String
deriving DecidableEq, Repr

/-- The server's answer to the EmailSubmission/set call. -/
structure SubmissionSetResponse where
  notCreatedSend : Option SetError
  createdSendId : Option String
deriving DecidableEq, Repr

/-- The transport's behaviour for one sendEmail run: the mailbox listing
returned when the cache is empty, and the two set-call responses. -/
structure ServerBehavior where
  mailboxList : List Mailbox
  createResp : EmailSetResponse
  submitResp : SubmissionSetResponse
deriving DecidableEq, Repr

/-- Strategy 1 of the draft-target choice (source lines 436-442). -/
def isDraftsRole (mb : Mailbox) : Bool := mb.role == some "drafts"

/-- Strategy 2 of the draft-target choice (source lines 445-453): a truthy
name containing "draft" case-insensitively. -/
def nameHasDraft (mb : Mailbox) : Bool :=
  mb.name != "" && strContains (jsToLower mb.name) "draft"

/-- Strategy 2 as the specification words it (the truthiness guard of the
source is redundant for a non-empty search pattern). -/
def nameHasDraftSpec (mb : Mailbox) : Bool := strContains (jsToLower mb.name) "draft"

/-- Strategy 3 of the draft-target choice (source lines 458-461): role inbox,
or not read-only with rights permitting adding items or creating children. -/
def isWritableMailbox (mb : Mailbox) : Bool :=
  mb.role == some "inbox" ||
    (!mb.isReadOnly &&
      (match mb.myRights with
       | some r => r.mayAddItems || r.mayCreateChild
       | none => false))

/-- Embedding of the draft-target mailbox choice (source lines 432-474):
role drafts, else name containing draft, else (on a non-empty cache) a
writable mailbox, else the first cached mailbox; none on an empty cache. -/
def chooseDraftsMailbox (mailboxCache : List Mailbox) : Option String :=
  match mailboxCache.find? isDraftsRole with
  | some mb => some mb.id
  | none =>
    match mailboxCache.find? nameHasDraft with
    | some mb => some mb.id
    | none =>
      match mailboxCache with
      | [] => none
      | first :: _ =>
        match mailboxCache.find? isWritableMailbox with
        | some mb => some mb.id
        | none => some first.id

/-- The draft-target choice as the specification words it: four fallbacks in
order, first hit winning, expressed as an orElse chain. -/
def chooseDraftsMailboxSpec (mailboxCache : List Mailbox) : Option String :=
  ((mailboxCache.find? isDraftsRole).map Mailbox.id).orElse (fun _ =>
    ((mailboxCache.find? nameHasDraftSpec).map Mailbox.id).orElse (fun _ =>
      ((mailboxCache.find? isWritableMailbox).map Mailbox.id).orElse (fun _ =>
        mailboxCache.head?.map Mailbox.id)))

/-- The re-classified endpoint-not-found message (source line 664). -/
def endpointNotFoundMessage : String :=
  "Email service endpoint not found. Please check your JMAP server configuration."

/-- The re-classified authentication-failure message (source line 667). -/
def credentialsFailedMessage : String :=
  "Authentication failed. Please check your credentials."

/-- The re-classified insufficient-permissions message (source line 670). -/
def insufficientPermissionsMessage : String :=
  "Insufficient permissions to send email. Please check your account permissions."

/-- Embedding of the catch-block re-classification of sendEmail (source
lines 658-675): substring checks on the error message, first hit winning,
otherwise the message passes through unchanged. -/
def classifyMessage (message : String) : String :=
  if strContains message "not found" || strContains message "404" then endpointNotFoundMessage
  else if strContains message "unauthorized" || strContains message "401" then credentialsFailedMessage
  else if strContains message "forbidden" || strContains message "403" then insufficientPermissionsMessage
  else message

/-- Disjunction of the six trigger substrings of the re-classifier. -/
def hasClassifierTrigger (message : String) : Bool :=
  strContains message "not found" || strContains message "404" ||
    strContains message "unauthorized" || strContains message "401" ||
    strContains message "forbidden" || strContains message "403"

/-- Successful sendEmail outcome: the draft's id and the submission's id. -/
structure SendResult where
  emailId : String
  submissionId : String
deriving DecidableEq, Repr

/-- The requests issued and the raw result of the try block of sendEmail
(source lines 564-656): create the draft, inspect the Email/set response,
check every address for an at sign, submit, inspect the EmailSubmission/set
response. Every error leaving this block is re-classified by the caller. -/
def sendEmailTry (st : ClientState) (srv : ServerBehavior) (d : EmailData)
    (fromEmail : String) (email : EmailObject) : List JmapCall × Except String SendResult :=
  let createCall := JmapCall.emailSetCreate st.accountId email
  match srv.createResp.notCreatedDraft with
  | some err => ([createCall], Except.error (createFailMessage err))
  | none =>
    match srv.createResp.createdDraftId with
    | none => ([createCall], Except.error "Draft creation failed - no created object returned")
    | some draftId =>
      let envelope := buildEnvelope d fromEmail
      let allEmails := fromEmail :: (d.toRecipients ++ d.cc ++ d.bcc)
      match allEmails.find? (fun a => !(strContains a "@")) with
      | some bad => ([createCall], Except.error (invalidAddressMessage bad))
      | none =>
        let submitCall := JmapCall.submissionSetCreate st.accountId draftId envelope
        match srv.submitResp.notCreatedSend with
        | some err => ([createCall, submitCall], Except.error (submitFailMessage err))
        | none =>
          match srv.submitResp.createdSendId with
          | none =>
            ([createCall, submitCall],
             Except.error "Email submission failed - no submission object returned")
          | some submissionId =>
            ([createCall, submitCall], Except.ok { emailId := draftId, submissionId := submissionId })

/-- The re-classification applied to everything thrown out of the try block. -/
def mapTryError : Except String SendResult → Except String SendResult
  | Except.ok r => Except.ok r
  | Except.error m => Except.error (classifyMessage m)

/-- The lazy mailbox-listing call issued when the cache is empty
(source lines 427-430). -/
def loadCallsOf (mailboxCache : List Mailbox) : List JmapCall :=
  if mailboxCache.isEmpty then [JmapCall.mailboxGet] else []

/-- The cache in effect after the lazy listing: the fetched list when the
cache was empty, the cache itself otherwise. -/
def effectiveCache (mailboxCache : List Mailbox) (srv : ServerBehavior) : List Mailbox :=
  if mailboxCache.isEmpty then srv.mailboxList else mailboxCache

/-- Embedding of sendEmail (source lines 402-676): validation, lazy mailbox
loading, draft-target choice, sender derivation, draft construction, then the
try block whose errors are re-classified. Returns the ordered request list
alongside the result. -/
def sendEmail (st : ClientState) (mailboxCache : List Mailbox) (srv : ServerBehavior)
    (d : EmailData) : List JmapCall × Except String SendResult :=
  if d.toRecipients.isEmpty then ([], Except.error "Recipients (to field) are required")
  else if d.subject == "" then ([], Except.error "Subject is required")
  else if !(truthyOpt d.textBody) && !(truthyOpt d.htmlBody) then
    ([], Except.error "Either textBody or htmlBody is required")
  else
    let loadCalls := loadCallsOf mailboxCache
    let cache := effectiveCache mailboxCache srv
    match chooseDraftsMailbox cache with
    | none => (loadCalls, Except.error "No suitable mailbox found for creating draft email")
    | some draftsMailboxId =>
      let fromEmail := deriveFromEmail st
      let email := buildEmailObject d fromEmail draftsMailboxId
      let tryOutcome := sendEmailTry st srv d fromEmail email
      (loadCalls ++ tryOutcome.1, mapTryError tryOutcome.2)

/-! Helper lemmas. -/

theorem strContains_of_infix {s t : String} (h : t.data <:+: s.data) : strContains s t = true := by
  simpa [strContains] using h

theorem strContains_list (s t : String) (l r : List Char) (h : s.data = l ++ (t.data ++ r)) :
    strContains s t = true := by
  apply strContains_of_infix
  exact ⟨l, r, by rw [h]; exact List.append_assoc l t.data r⟩

theorem find?_congrPred {α : Type} {p q : α → Bool} (h : ∀ a, p a = q a) :
    ∀ l : List α, l.find? p = l.find? q := by
  intro l
  induction l with
  | nil => rfl
  | cons a t ih =>
    cases hqa : q a with
    | true =>
      rw [List.find?_cons_of_pos _ (by rw [h a, hqa]), List.find?_cons_of_pos _ hqa]
    | false =>
      rw [List.find?_cons_of_neg _ (by simp [h a, hqa]), List.find?_cons_of_neg _ (by simp [hqa]), ih]

theorem nameHasDraft_eq_spec (mb : Mailbox) : nameHasDraft mb = nameHasDraftSpec mb := by
  unfold nameHasDraft nameHasDraftSpec
  by_cases h : mb.name = ""
  · rw [h]; decide
  · have h' : (mb.name != "") = true := by simpa using h
    rw [h', Bool.true_and]

theorem deriveFromEmail_contains_at (st : ClientState) :
    strContains (deriveFromEmail st) "@" = true := by
  unfold deriveFromEmail
  split
  · next h => exact h
  · apply strContains_list _ _ st.username.data (stripLeadingMail st.hostname).data
    rw [String.data_append, String.data_append, List.append_assoc]

theorem classify_id_of_no_trigger (m : String) (h : hasClassifierTrigger m = false) :
    classifyMessage m = m := by
  unfold hasClassifierTrigger at h
  simp only [Bool.or_eq_false_iff] at h
  obtain ⟨⟨⟨⟨⟨h1, h2⟩, h3⟩, h4⟩, h5⟩, h6⟩ := h
  unfold classifyMessage
  simp [h1, h2, h3, h4, h5, h6]

theorem sendEmail_eq_try (st : ClientState) (cache : List Mailbox) (srv : ServerBehavior)
    (d : EmailData) (mid : String)
    (hto : d.toRecipients ≠ []) (hsub : d.subject ≠ "")
    (hbody : (truthyOpt d.textBody || truthyOpt d.htmlBody) = true)
    (hmb : chooseDraftsMailbox (effectiveCache cache srv) = some mid) :
    sendEmail st cache srv d =
      (loadCallsOf cache ++
        (sendEmailTry st srv d (deriveFromEmail st) (buildEmailObject d (deriveFromEmail st) mid)).1,
       mapTryError
        (sendEmailTry st srv d (deriveFromEmail st) (buildEmailObject d (deriveFromEmail st) mid)).2) := by
  unfold sendEmail
  have h1 : d.toRecipients.isEmpty = false := by simp [List.isEmpty_iff, hto]
  have h2 : (d.subject == "") = false := by simp [hsub]
  have h3 : (!truthyOpt d.textBody && !truthyOpt d.htmlBody) = false := by
    cases ht : truthyOpt d.textBody <;> cases hh : truthyOpt d.htmlBody <;> simp_all
  simp only [h1, h2, h3, Bool.false_eq_true, if_false]
  rw [hmb]

theorem sendEmailTry_calls_head (st : ClientState) (srv : ServerBehavior) (d : EmailData)
    (fromEmail : String) (email : EmailObject) :
    ∃ rest, (sendEmailTry st srv d fromEmail email).1 =
      JmapCall.emailSetCreate st.accountId email :: rest := by
  unfold sendEmailTry
  cases h1 : srv.createResp.notCreatedDraft with
  | some err => simp only [h1]; exact ⟨_, rfl⟩
  | none =>
    simp only [h1]
    cases h2 : srv.createResp.createdDraftId with
    | none => simp only [h2]; exact ⟨_, rfl⟩
    | some draftId =>
      simp only [h2]
      cases h3 : (fromEmail :: (d.toRecipients ++ d.cc ++ d.bcc)).find?
          (fun a => !strContains a "@") with
      | some bad => simp only [h3]; exact ⟨_, rfl⟩
      | none =>
        simp only [h3]
        cases h4 : srv.submitResp.notCreatedSend with
        | some err => simp only [h4]; exact ⟨_, rfl⟩
        | none =>
          simp only [h4]
          cases h5 : srv.submitResp.createdSendId with
          | none => simp only [h5]; exact ⟨_, rfl⟩
          | some sid => simp only [h5]; exact ⟨_, rfl⟩

/-! Concrete fixtures used by witnesses and counterexamples. -/

/-- A client whose username already carries a domain and whose session uses
account acc1. -/
def stFix : ClientState :=
  { username := "user@example.com", hostname := "mail.example.com", accountId := some "acc1" }

/-- The send request of end-to-end scenario B: one recipient, subject Hi,
plain-text body Hello. -/
def dFixB : EmailData :=
  { toRecipients := ["a@x.com"], subject := "Hi", textBody := some "Hello", htmlBody := none,
    cc := [], bcc := [], inReplyTo := none, references := [] }

/-- The single writable inbox mailbox of end-to-end scenario B. -/
def mbInboxB : Mailbox :=
  { id := "M2", name := "Inbox", role := some "inbox", isReadOnly := false,
    myRights := some { mayAddItems := true, mayCreateChild := false } }

/-- The plain inbox mailbox of end-to-end scenario A. -/
def mbInboxA : Mailbox :=
  { id := "M1", name := "Inbox", role := some "inbox", isReadOnly := false, myRights := none }

/-- A transport on which both the draft creation and the submission succeed. -/
def srvFixOk : ServerBehavior :=
  { mailboxList := [],
    createResp := { notCreatedDraft := none, createdDraftId := some "D1" },
    submitResp := { notCreatedSend := none, createdSendId := some "S1" } }

/-- A cache holding one role-designated drafts mailbox. -/
def cacheDrafts : List Mailbox :=
  [{ id := "MD", name := "Drafts", role := some "drafts", isReadOnly := false, myRights := none }]

/-- A transport on which the draft is created but the submission is rejected
with the JMAP set-error type forbidden. -/
def srvFixForbidden : ServerBehavior :=
  { mailboxList := [],
    createResp := { notCreatedDraft := none, createdDraftId := some "D1" },
    submitResp := { notCreatedSend := some { type := some "forbidden", description := some "denied" },
                    createdSendId := none } }

/-- A transport on which the draft is created but the submission is rejected
with type invalidRecipients, as in end-to-end scenario C. -/
def srvFixInvalidRcpt : ServerBehavior :=
  { mailboxList := [],
    createResp := { notCreatedDraft := none, createdDraftId := some "D1" },
    submitResp := { notCreatedSend := some { type := some "invalidRecipients",
                                             description := some "bad recipient" },
                    createdSendId := none } }

/-- A send request that passes validation but whose only recipient lacks an
at sign. -/
def dFixBad : EmailData :=
  { toRecipients := ["noat"], subject := "Hi", textBody := some "Hello", htmlBody := none,
    cc := [], bcc := [], inReplyTo := none, references := [] }

/-- A send request with no recipients at all. -/
def dFixEmpty : EmailData :=
  { toRecipients := [], subject := "Hi", textBody := some "Hello", htmlBody := none,
    cc := [], bcc := [], inReplyTo := none, references := [] }

/-- A failing primary discovery response. -/
def respFail : HttpResponse :=
  { ok := false, status := 404, statusText := "Not Found", body := "nope" }

/-- A succeeding alternative discovery response. -/
def respOk : HttpResponse :=
  { ok := true, status := 200, statusText := "OK", body := "yay" }

/-! Claim theorems. -/

/-- C1: for every send-email request with zero recipients, or a missing/empty
subject, or with both textBody and htmlBody absent, sendEmail fails with a
validation error before issuing any network request: the issued-request list
is empty and the result is one of the three validation error messages. -/
theorem claim_C1_validation_before_network (st : ClientState) (cache : List Mailbox)
    (srv : ServerBehavior) (d : EmailData)
    (h : d.toRecipients = [] ∨ d.subject = "" ∨
      (truthyOpt d.textBody = false ∧ truthyOpt d.htmlBody = false)) :
    (sendEmail st cache srv d).1 = [] ∧
    ∃ m, (sendEmail st cache srv d).2 = Except.error m ∧
      (m = "Recipients (to field) are required" ∨ m = "Subject is required" ∨
       m = "Either textBody or htmlBody is required") := by
  unfold sendEmail
  by_cases h1 : d.toRecipients.isEmpty
  · simp [h1]
  · have h1' : d.toRecipients ≠ [] := by simpa [List.isEmpty_iff] using h1
    rw [Bool.not_eq_true] at h1
    by_cases h2 : d.subject == ""
    · simp [h1, h2]
    · rw [Bool.not_eq_true] at h2
      rcases h with h | h | h
      · exact absurd h h1'
      · exact absurd h (by simpa using h2)
      · have h3 : (!truthyOpt d.textBody && !truthyOpt d.htmlBody) = true := by
          simp [h.1, h.2]
        simp [h1, h2, h3]

/-- Witness for C1: a request with an empty recipient list issues no request
and fails with the recipients validation message. -/
theorem claim_C1_witness :
    (sendEmail stFix [] srvFixOk dFixEmpty).1 = [] ∧
    ∃ m, (sendEmail stFix [] srvFixOk dFixEmpty).2 = Except.error m ∧
      (m = "Recipients (to field) are required" ∨ m = "Subject is required" ∨
       m = "Either textBody or htmlBody is required") :=
  claim_C1_validation_before_network stFix [] srvFixOk dFixEmpty (Or.inl rfl)

/-- C4: the Identifier Resolver applies exactly the three strategies in order
with the first hit winning (equality with the orElse-chain formulation); a
label exactly matching a cached display name case-insensitively yields that
mailbox's identifier; and when no strategy matches, it returns none. -/
theorem claim_C4_identifier_resolver (mailboxName : String) (cache : List Mailbox) :
    findMailboxByName mailboxName cache = findMailboxByNameSpec mailboxName cache ∧
    (∀ mb ∈ cache, exactNameMatch (jsTrim (jsToLower mailboxName)) mb = true →
      ∃ mb', mb' ∈ cache ∧ exactNameMatch (jsTrim (jsToLower mailboxName)) mb' = true ∧
        findMailboxByName mailboxName cache = some mb'.id) ∧
    ((∀ mb ∈ cache, exactNameMatch (jsTrim (jsToLower mailboxName)) mb = false) →
     (∀ mb ∈ cache, substringNameMatch (jsTrim (jsToLower mailboxName)) mb = false) →
     (∀ role, roleMapLookup (jsTrim (jsToLower mailboxName)) = some role →
        ∀ mb ∈ cache, roleMatch role mb = false) →
     findMailboxByName mailboxName cache = none) := by
  refine ⟨?_, ?_, ?_⟩
  · unfold findMailboxByName findMailboxByNameSpec
    cases hfe : cache.find? (exactNameMatch (jsTrim (jsToLower mailboxName))) with
    | some mb => simp [hfe, Option.orElse]
    | none =>
      cases hfs : cache.find? (substringNameMatch (jsTrim (jsToLower mailboxName))) with
      | some mb => simp [hfe, hfs, Option.orElse]
      | none =>
        cases hr : roleMapLookup (jsTrim (jsToLower mailboxName)) with
        | some role => simp [hfe, hfs, hr, Option.orElse]
        | none => simp [hfe, hfs, hr, Option.orElse]
  · intro mb hmem hmatch
    have hsome : (cache.find? (exactNameMatch (jsTrim (jsToLower mailboxName)))).isSome := by
      exact List.find?_isSome.2 ⟨mb, hmem, hmatch⟩
    obtain ⟨mb', hfind⟩ := Option.isSome_iff_exists.1 hsome
    refine ⟨mb', List.mem_of_find?_eq_some hfind, List.find?_some hfind, ?_⟩
    unfold findMailboxByName
    simp [hfind]
  · intro hex hsub hrole
    have hfe : cache.find? (exactNameMatch (jsTrim (jsToLower mailboxName))) = none :=
      List.find?_eq_none.2 (fun mb hm => by simp [hex mb hm])
    have hfs : cache.find? (substringNameMatch (jsTrim (jsToLower mailboxName))) = none :=
      List.find?_eq_none.2 (fun mb hm => by simp [hsub mb hm])
    unfold findMailboxByName
    cases hr : roleMapLookup (jsTrim (jsToLower mailboxName)) with
    | some role =>
      have hfr : cache.find? (roleMatch role) = none :=
        List.find?_eq_none.2 (fun mb hm => by simp [hrole role hr mb hm])
      simp [hfe, hfs, hr, hfr]
    | none => simp [hfe, hfs, hr]

/-- Witness for C4: the label Inbox against a cache holding mailbox M1 named
Inbox resolves, via the exact-match strategy, to M1. -/
theorem claim_C4_witness : findMailboxByName "Inbox" [mbInboxA] = some "M1" := by
  obtain ⟨-, h2, -⟩ := claim_C4_identifier_resolver "Inbox" [mbInboxA]
  obtain ⟨mb', hmem, hmatch, hres⟩ := h2 mbInboxA (by decide) (by decide)
  have hm : mb' = mbInboxA := by simpa using hmem
  rw [hres, hm]
  rfl

/-- C5: the session's account identifier equals the caller-supplied explicit
override when one is configured (truthy); otherwise the discovery document's
primary-account mapping for the mail capability when truthy; otherwise the
first key of the accounts map. -/
theorem claim_C5_account_id_resolution (configAccountId : Option String) (sd : SessionData) :
    (∀ a, configAccountId = some a → a ≠ "" → resolveAccountId configAccountId sd = some a) ∧
    (truthyOpt configAccountId = false →
      ∀ p, sd.primaryAccountsMail = some p → p ≠ "" →
        resolveAccountId configAccountId sd = some p) ∧
    (truthyOpt configAccountId = false → truthyOpt sd.primaryAccountsMail = false →
      resolveAccountId configAccountId sd = sd.accountKeys.head?) := by
  unfold resolveAccountId jsOr
  refine ⟨?_, ?_, ?_⟩
  · rintro a rfl ha
    have h : truthyOpt (some a) = true := by simpa [truthyOpt] using ha
    simp [h]
  · intro hc p hpm hp
    have h : truthyOpt (some p) = true := by simpa [truthyOpt] using hp
    simp [hc, hpm, h]
  · intro hc hp
    simp [hc, hp]

/-- Witness for C5: a truthy explicit override wins over a present
primary-account mapping. -/
theorem claim_C5_witness :
    resolveAccountId (some "acc9") { primaryAccountsMail := some "accP", accountKeys := ["accK"] } =
      some "acc9" :=
  (claim_C5_account_id_resolution (some "acc9")
    { primaryAccountsMail := some "accP", accountKeys := ["accK"] }).1 "acc9" rfl (by decide)

/-- C2: for every validated send request, the draft-target mailbox is chosen
by the exact four-step precedence (role drafts, then name containing draft,
then writable, then first cached mailbox — stated as equality with the
orElse-chain formulation); the chosen identifier is the one placed in the
draft-creating call; the operation fails when the cache is still empty after
the listing attempt; and on scenario B's single writable inbox cache the
whole run selects M2 and succeeds. -/
theorem claim_C2_draft_target_choice (st : ClientState) (cache : List Mailbox)
    (srv : ServerBehavior) (d : EmailData) (mid : String)
    (hto : d.toRecipients ≠ []) (hsub : d.subject ≠ "")
    (hbody : (truthyOpt d.textBody || truthyOpt d.htmlBody) = true) :
    (∀ c : List Mailbox, chooseDraftsMailbox c = chooseDraftsMailboxSpec c) ∧
    (chooseDraftsMailbox (effectiveCache cache srv) = some mid →
      ∃ rest, (sendEmail st cache srv d).1 =
        loadCallsOf cache ++
          JmapCall.emailSetCreate st.accountId
            (buildEmailObject d (deriveFromEmail st) mid) :: rest) ∧
    (effectiveCache cache srv = [] →
      sendEmail st cache srv d =
        (loadCallsOf cache, Except.error "No suitable mailbox found for creating draft email")) ∧
    sendEmail stFix [mbInboxB] srvFixOk dFixB =
      ([JmapCall.emailSetCreate (some "acc1") (buildEmailObject dFixB "user@example.com" "M2"),
        JmapCall.submissionSetCreate (some "acc1") "D1" (buildEnvelope dFixB "user@example.com")],
       Except.ok { emailId := "D1", submissionId := "S1" }) := by
  refine ⟨?_, ?_, ?_, ?_⟩
  · intro c
    unfold chooseDraftsMailbox chooseDraftsMailboxSpec
    rw [find?_congrPred nameHasDraft_eq_spec c]
    cases hf1 : c.find? isDraftsRole with
    | some mb => simp [Option.orElse]
    | none =>
      cases hf2 : c.find? nameHasDraftSpec with
      | some mb => simp [Option.orElse]
      | none =>
        cases c with
        | nil => simp [Option.orElse]
        | cons first rest =>
          cases hf3 : (first :: rest).find? isWritableMailbox with
          | some mb => simp [hf3, Option.orElse]
          | none => simp [hf3, Option.orElse]
  · intro hmb
    rw [sendEmail_eq_try st cache srv d mid hto hsub hbody hmb]
    obtain ⟨rest, hrest⟩ :=
      sendEmailTry_calls_head st srv d (deriveFromEmail st)
        (buildEmailObject d (deriveFromEmail st) mid)
    exact ⟨rest, by rw [hrest]⟩
  · intro hempty
    unfold sendEmail
    have h1 : d.toRecipients.isEmpty = false := by simp [List.isEmpty_iff, hto]
    have h2 : (d.subject == "") = false := by simp [hsub]
    have h3 : (!truthyOpt d.textBody && !truthyOpt d.htmlBody) = false := by
      cases ht : truthyOpt d.textBody <;> cases hh : truthyOpt d.htmlBody <;> simp_all
    simp only [h1, h2, h3, Bool.false_eq_true, if_false]
    rw [hempty]
    rfl
  · decide

/-- Witness for C2: the theorem applied at scenario B's inputs; in particular
the whole run on the single writable inbox cache targets M2. -/
theorem claim_C2_witness :
    sendEmail stFix [mbInboxB] srvFixOk dFixB =
      ([JmapCall.emailSetCreate (some "acc1") (buildEmailObject dFixB "user@example.com" "M2"),
        JmapCall.submissionSetCreate (some "acc1") "D1" (buildEnvelope dFixB "user@example.com")],
       Except.ok { emailId := "D1", submissionId := "S1" }) :=
  (claim_C2_draft_target_choice stFix [mbInboxB] srvFixOk dFixB "M2"
    (by decide) (by decide) (by decide)).2.2.2

/-- C6: every error leaving the draft-creation/submission try block of
sendEmail is re-classified by message content with the cascade of substring
checks, first hit winning — not-found/404, then unauthorized/401, then
forbidden/403 — and any other message passes through unchanged; the result of
sendEmail on the post-validation path is exactly the re-classification of the
try block's outcome. -/
theorem claim_C6_error_reclassification (m : String) :
    ((strContains m "not found" || strContains m "404") = true →
      classifyMessage m = endpointNotFoundMessage) ∧
    ((strContains m "not found" || strContains m "404") = false →
      (strContains m "unauthorized" || strContains m "401") = true →
      classifyMessage m = credentialsFailedMessage) ∧
    ((strContains m "not found" || strContains m "404") = false →
      (strContains m "unauthorized" || strContains m "401") = false →
      (strContains m "forbidden" || strContains m "403") = true →
      classifyMessage m = insufficientPermissionsMessage) ∧
    (hasClassifierTrigger m = false → classifyMessage m = m) ∧
    (mapTryError (Except.error m) = Except.error (classifyMessage m)) ∧
    (∀ (st : ClientState) (cache : List Mailbox) (srv : ServerBehavior) (d : EmailData)
        (mid : String),
      d.toRecipients ≠ [] → d.subject ≠ "" →
      (truthyOpt d.textBody || truthyOpt d.htmlBody) = true →
      chooseDraftsMailbox (effectiveCache cache srv) = some mid →
      (sendEmail st cache srv d).2 =
        mapTryError
          (sendEmailTry st srv d (deriveFromEmail st)
            (buildEmailObject d (deriveFromEmail st) mid)).2) := by
  refine ⟨?_, ?_, ?_, classify_id_of_no_trigger m, rfl, ?_⟩
  · intro h
    unfold classifyMessage
    simp [h]
  · intro h1 h2
    unfold classifyMessage
    simp only [Bool.or_eq_false_iff] at h1
    simp [h1.1, h1.2, h2]
  · intro h1 h2 h3
    unfold classifyMessage
    simp only [Bool.or_eq_false_iff] at h1 h2
    simp [h1.1, h1.2, h2.1, h2.2, h3]
  · intro st cache srv d mid hto hsub hbody hmb
    rw [sendEmail_eq_try st cache srv d mid hto hsub hbody hmb]

/-- Witness for C6: a message containing 404 is re-classified to the
endpoint-not-found message. -/
theorem claim_C6_witness :
    classifyMessage "JMAP request failed: 404 Not Found. Response: x" = endpointNotFoundMessage :=
  (claim_C6_error_reclassification "JMAP request failed: 404 Not Found. Response: x").1 (by decide)

/-- C7: getEmails resolves a supplied non-empty mailbox string as a name
exactly when it is not a single lowercase letter, while searchEmails resolves
it exactly when it does not start with the capital letter M; and scenario A's
list-emails with mailboxId Inbox resolves the name against the cache and
issues a query filtered by the resolved identifier M1. -/
theorem claim_C7_identifier_heuristics (s : String) (hs : s ≠ "") :
    getEmailsResolvesName s = !(isSingleLowercaseLetter s) ∧
    searchEmailsResolvesName s = !(jsStartsWith s "M") ∧
    getEmails (some "acc1") (some "Inbox") 50 [mbInboxA] =
      Except.ok
        [MailCall.emailQuery (some "acc1") (some { text := none, inMailbox := some "M1" })
          "receivedAt" false 50 "query",
         MailCall.emailGet (some "acc1")
           { resultOf := "query", name := "Email/query", path := "/ids" }
           emailListProperties "emails"] := by
  have hs' : (s != "") = true := by simpa using hs
  refine ⟨?_, ?_, by decide⟩
  · unfold getEmailsResolvesName
    rw [hs', Bool.true_and]
  · unfold searchEmailsResolvesName
    rw [hs', Bool.true_and]

/-- Witness for C7: instantiated at the non-empty string Inbox. -/
theorem claim_C7_witness :
    getEmailsResolvesName "Inbox" = !(isSingleLowercaseLetter "Inbox") ∧
    searchEmailsResolvesName "Inbox" = !(jsStartsWith "Inbox" "M") ∧
    getEmails (some "acc1") (some "Inbox") 50 [mbInboxA] =
      Except.ok
        [MailCall.emailQuery (some "acc1") (some { text := none, inMailbox := some "M1" })
          "receivedAt" false 50 "query",
         MailCall.emailGet (some "acc1")
           { resultOf := "query", name := "Email/query", path := "/ids" }
           emailListProperties "emails"] :=
  claim_C7_identifier_heuristics "Inbox" (by decide)

/-- The deferred back-reference shape demanded of a list/search batch: two
calls, the second being a get whose ids parameter is the unresolved structure
naming the first call's tag, the method Email/query and the path /ids. -/
def deferredBackRefBatch (calls : List MailCall) : Prop :=
  ∃ a f sp sa lim qtag a' props gtag,
    calls =
      [MailCall.emailQuery a f sp sa lim qtag,
       MailCall.emailGet a' { resultOf := qtag, name := "Email/query", path := "/ids" }
         props gtag]

/-- C8: every batch produced by getEmails or searchEmails carries the
unresolved back-reference structure in its get call (resolution is left to
the server — the structure is handed to the transport unchanged), and the
request body wrapped around any method-call list declares the four capability
URNs. -/
theorem claim_C8_backref_and_capabilities (accountId : Option String)
    (mailboxId : Option String) (q : String) (lim : Nat) (cache : List Mailbox) :
    (∀ calls, getEmails accountId mailboxId lim cache = Except.ok calls →
      deferredBackRefBatch calls) ∧
    (∀ calls, searchEmails accountId q lim mailboxId cache = Except.ok calls →
      deferredBackRefBatch calls) ∧
    (∀ mcs : List MailCall, (jmapRequestBody mcs).usingCapabilities =
      ["urn:ietf:params:jmap:core", "urn:ietf:params:jmap:mail",
       "urn:ietf:params:jmap:calendars", "urn:ietf:params:jmap:contacts"]) := by
  refine ⟨?_, ?_, fun mcs => rfl⟩
  · intro calls h
    unfold getEmails at h
    by_cases ht : truthyOpt mailboxId = false
    · rw [if_pos ht] at h
      simp only [Except.ok.injEq] at h
      exact ⟨_, _, _, _, _, _, _, _, _, h.symm⟩
    · rw [if_neg ht] at h
      cases hr : resolveForGetEmails (mailboxId.getD "") cache with
      | error e => rw [hr] at h; exact absurd h (by simp)
      | ok resolvedMailboxId =>
        rw [hr] at h
        simp only [Except.ok.injEq] at h
        exact ⟨_, _, _, _, _, _, _, _, _, h.symm⟩
  · intro calls h
    unfold searchEmails at h
    cases hr : resolveForSearchEmails mailboxId cache with
    | error e => rw [hr] at h; exact absurd h (by simp)
    | ok resolvedMailboxId =>
      rw [hr] at h
      simp only [Except.ok.injEq] at h
      exact ⟨_, _, _, _, _, _, _, _, _, h.symm⟩

/-- Witness for C8: the batch built for an unfiltered list request satisfies
the deferred back-reference shape. -/
theorem claim_C8_witness :
    deferredBackRefBatch
      [MailCall.emailQuery (some "acc1") none "receivedAt" false 50 "query",
       MailCall.emailGet (some "acc1")
         { resultOf := "query", name := "Email/query", path := "/ids" }
         emailListProperties "emails"] :=
  (claim_C8_backref_and_capabilities (some "acc1") none "" 50 []).1 _ (by decide)

/-- C9: when the primary well-known discovery request is not ok, the fallback
probing of alternative endpoints has no effect on the outcome — the result is
unchanged under any alternative responses (even all-successful ones), no auth
token is stored, and authenticate fails with a message carrying the primary
response's status and body. -/
theorem claim_C9_fallback_has_no_effect (credentials : String) (primary : HttpResponse)
    (alternatives alternatives' : List HttpResponse) (h : primary.ok = false) :
    authenticate credentials primary alternatives = authenticate credentials primary alternatives' ∧
    (authenticate credentials primary alternatives).storedToken = none ∧
    (authenticate credentials primary alternatives).result =
      Except.error (authFailureMessage primary) ∧
    strContains (authFailureMessage primary) (toString primary.status) = true ∧
    strContains (authFailureMessage primary) primary.body = true := by
  unfold authenticate
  simp only [h, Bool.false_eq_true, if_false]
  refine ⟨by trivial, by trivial, by trivial, ?_, ?_⟩
  · apply strContains_list _ _ ("Authentication failed: " ++ "JMAP discovery failed: ").data
      ((" " ++ primary.statusText ++ ". Response: " ++ primary.body)).data
    simp only [authFailureMessage, discoveryFailureMessage, String.data_append,
      List.append_assoc]
  · apply strContains_list _ _
      ("Authentication failed: " ++ ("JMAP discovery failed: " ++ toString primary.status ++ " " ++
        primary.statusText ++ ". Response: ")).data []
    simp only [authFailureMessage, discoveryFailureMessage, String.data_append,
      List.append_assoc, List.append_nil]

/-- Witness for C9: a failing 404 primary with one succeeding alternative
behaves exactly as with no alternatives at all, and stores no token. -/
theorem claim_C9_witness :
    authenticate "cred" respFail [respOk] = authenticate "cred" respFail [] ∧
    (authenticate "cred" respFail [respOk]).storedToken = none := by
  have h := claim_C9_fallback_has_no_effect "cred" respFail [respOk] [] (by decide)
  exact ⟨h.1, h.2.1⟩

/-- C3 counterexample: the claim says the raised error's message embeds the
server-reported error type. With draft creation succeeding and the submission
reported not-created with the (standard JMAP) type forbidden, the SubmitError
message contains the word forbidden, so the catch-block re-classification
replaces it: sendEmail's propagated error is the generic insufficient-
permissions message, which does not contain the type forbidden at all. -/
theorem claim_C3_counterexample :
    srvFixForbidden.submitResp.notCreatedSend.map SetError.type = some (some "forbidden") ∧
    (sendEmail stFix cacheDrafts srvFixForbidden dFixB).2 =
      Except.error insufficientPermissionsMessage ∧
    strContains insufficientPermissionsMessage "forbidden" = false := by
  refine ⟨by decide, by decide, by decide⟩

/-- C3 amended: when draft creation succeeds but the submission response
reports the submission as not-created (or contains no created entry),
sendEmail issues no request after the submission call — the request list ends
with the submission, so in particular no compensating delete of the created
draft — and fails with the re-classification of the SubmitError message; that
message embeds the server-reported error type, and survives re-classification
unchanged whenever it contains none of the trigger substrings. -/
theorem claim_C3_submit_failure_no_rollback (st : ClientState) (cache : List Mailbox)
    (srv : ServerBehavior) (d : EmailData) (mid draftId : String)
    (hto : d.toRecipients ≠ []) (hsub : d.subject ≠ "")
    (hbody : (truthyOpt d.textBody || truthyOpt d.htmlBody) = true)
    (hmb : chooseDraftsMailbox (effectiveCache cache srv) = some mid)
    (hc1 : srv.createResp.notCreatedDraft = none)
    (hc2 : srv.createResp.createdDraftId = some draftId)
    (hat : ∀ a ∈ deriveFromEmail st :: (d.toRecipients ++ d.cc ++ d.bcc),
      strContains a "@" = true)
    (hfail : srv.submitResp.notCreatedSend.isSome = true ∨
      (srv.submitResp.notCreatedSend = none ∧ srv.submitResp.createdSendId = none)) :
    ∃ m,
      sendEmail st cache srv d =
        (loadCallsOf cache ++
          [JmapCall.emailSetCreate st.accountId (buildEmailObject d (deriveFromEmail st) mid),
           JmapCall.submissionSetCreate st.accountId draftId
             (buildEnvelope d (deriveFromEmail st))],
         Except.error (classifyMessage m)) ∧
      ∀ e, srv.submitResp.notCreatedSend = some e →
        m = submitFailMessage e ∧
        ∀ t, e.type = some t → t ≠ "" →
          strContains m t = true ∧
          (hasClassifierTrigger m = false → classifyMessage m = m) := by
  have hfind : (deriveFromEmail st :: (d.toRecipients ++ d.cc ++ d.bcc)).find?
      (fun a => !strContains a "@") = none :=
    List.find?_eq_none.2 (fun a ha => by simp [hat a ha])
  rw [sendEmail_eq_try st cache srv d mid hto hsub hbody hmb]
  unfold sendEmailTry
  simp only [hc1, hc2, hfind]
  rcases hfail with hfail | ⟨hns, hcs⟩
  · obtain ⟨e, he⟩ := Option.isSome_iff_exists.1 hfail
    refine ⟨submitFailMessage e, ?_, ?_⟩
    · simp only [he]
      rfl
    · intro e' he'
      rw [he] at he'
      obtain rfl : e = e' := by injection he'
      refine ⟨rfl, ?_⟩
      intro t ht htne
      have hty : jsGetD e.type "Unknown error" = t := by
        rw [ht]
        unfold jsGetD
        simp [htne]
      constructor
      · apply strContains_list _ _ "Failed to send email: ".data
          (" - " ++ jsGetD e.description (stringifySetError e)).data
        unfold submitFailMessage
        rw [hty]
        simp only [String.data_append, List.append_assoc]
      · intro hnt
        exact classify_id_of_no_trigger _ hnt
  · refine ⟨"Email submission failed - no submission object returned", ?_, ?_⟩
    · simp only [hns, hcs]
      rfl
    · intro e he'
      rw [hns] at he'
      exact absurd he' (by simp)

/-- Witness for C3's amended statement: scenario C, where the submission is
rejected with type invalidRecipients against a drafts-role cache. -/
theorem claim_C3_witness :
    ∃ m,
      sendEmail stFix cacheDrafts srvFixInvalidRcpt dFixB =
        (loadCallsOf cacheDrafts ++
          [JmapCall.emailSetCreate stFix.accountId
             (buildEmailObject dFixB (deriveFromEmail stFix) "MD"),
           JmapCall.submissionSetCreate stFix.accountId "D1"
             (buildEnvelope dFixB (deriveFromEmail stFix))],
         Except.error (classifyMessage m)) ∧
      ∀ e, srvFixInvalidRcpt.submitResp.notCreatedSend = some e →
        m = submitFailMessage e ∧
        ∀ t, e.type = some t → t ≠ "" →
          strContains m t = true ∧
          (hasClassifierTrigger m = false → classifyMessage m = m) :=
  claim_C3_submit_failure_no_rollback stFix cacheDrafts srvFixInvalidRcpt dFixB "MD" "D1"
    (by decide) (by decide) (by decide) (by decide) (by decide) (by decide)
    (by decide) (Or.inl (by decide))

/-- C10: a send request that passes step-1 validation but carries a
to/cc/bcc address without an at sign fails only after the draft-creation
request has been issued (here: creation succeeded, so the draft exists) and
never issues the submission request — the request list is exactly the lazy
listing plus the single draft-creating call, and the result is the
address-format error (routed, like every try-block error, through the
re-classifier). -/
theorem claim_C10_address_error_after_create (st : ClientState) (cache : List Mailbox)
    (srv : ServerBehavior) (d : EmailData) (mid draftId : String)
    (hto : d.toRecipients ≠ []) (hsub : d.subject ≠ "")
    (hbody : (truthyOpt d.textBody || truthyOpt d.htmlBody) = true)
    (hmb : chooseDraftsMailbox (effectiveCache cache srv) = some mid)
    (hc1 : srv.createResp.notCreatedDraft = none)
    (hc2 : srv.createResp.createdDraftId = some draftId)
    (hbad : ∃ a ∈ d.toRecipients ++ d.cc ++ d.bcc, strContains a "@" = false) :
    ∃ bad, strContains bad "@" = false ∧
      sendEmail st cache srv d =
        (loadCallsOf cache ++
          [JmapCall.emailSetCreate st.accountId (buildEmailObject d (deriveFromEmail st) mid)],
         Except.error (classifyMessage (invalidAddressMessage bad))) := by
  have hsome : ((d.toRecipients ++ d.cc ++ d.bcc).find? (fun a => !strContains a "@")).isSome := by
    apply List.find?_isSome.2
    obtain ⟨a, ha, hna⟩ := hbad
    exact ⟨a, ha, by simp [hna]⟩
  obtain ⟨bad, hfindrest⟩ := Option.isSome_iff_exists.1 hsome
  have hpbad := List.find?_some hfindrest
  have hfind : (deriveFromEmail st :: (d.toRecipients ++ d.cc ++ d.bcc)).find?
      (fun a => !strContains a "@") = some bad := by
    rw [List.find?_cons_of_neg _ (by simp [deriveFromEmail_contains_at st])]
    exact hfindrest
  refine ⟨bad, by simpa using hpbad, ?_⟩
  rw [sendEmail_eq_try st cache srv d mid hto hsub hbody hmb]
  unfold sendEmailTry
  simp only [hc1, hc2, hfind]
  rfl

/-- Witness for C10: a request whose single recipient noat lacks an at sign,
against a drafts-role cache and a transport whose draft creation succeeds. -/
theorem claim_C10_witness :
    ∃ bad, strContains bad "@" = false ∧
      sendEmail stFix cacheDrafts srvFixOk dFixBad =
        (loadCallsOf cacheDrafts ++
          [JmapCall.emailSetCreate stFix.accountId
             (buildEmailObject dFixBad (deriveFromEmail stFix) "MD")],
         Except.error (classifyMessage (invalidAddressMessage bad))) :=
  claim_C10_address_error_after_create stFix cacheDrafts srvFixOk dFixBad "MD" "D1"
    (by decide) (by decide) (by decide) (by decide) (by decide) (by decide)
    ⟨"noat", by decide, by decide⟩

end JmapMcp
